import Mathlib

/-!
Verification of the pico_fota bootloader core against its specification.

The development shallowly embeds the bootloader sources (`src/bootloader.c`
and `src/unnamed/part_000`): flash slots become functions from byte offsets
to byte values, the metadata record becomes a structure of flags, and the
control flow of `main` becomes explicit state-transformer definitions.
Machine integers (`uint32_t` sizes and counts) are modelled as `Nat`; all
values involved (slot lengths, upload sizes) are far below `2^32`, so no
wrap-around arithmetic occurs in the embedded fragments.
-/

namespace PicoFota

/-- A flash byte value. -/
abbrev Byte := Nat

/-- Constant `FLASH_SECTOR_SIZE` from the RP2040 SDK: the erase granularity. -/
def FLASH_SECTOR_SIZE : Nat := 4096

/-- Constant `PFB_ALIGN_SIZE`: the minimum program granularity (upload buffer size). -/
def PFB_ALIGN_SIZE : Nat := 256

/-- Value of an erased flash byte. -/
def FLASH_ERASED : Byte := 255

/-- Modelled from the spec: the metadata record persisted in the `INFO`
sector (spec section 3).  The `pico_fota_bootloader` library that owns it is
not under `src/`; the fields follow the spec's data model.  The stored
digest is not modelled: the SHA-256 primitive is an external collaborator
and its verdict enters the embedding as a boolean input. -/
structure Metadata where
  has_new_firmware : Bool
  after_rollback : Bool
  should_rollback : Bool
  firmware_to_swap : Bool
  swap_size : Nat
  download_slot_valid : Bool
deriving Repr, DecidableEq

/-- The bootloader-visible device state: the two firmware slots (indexed by
byte offset from the slot base) and the metadata record in `INFO`. -/
structure Device where
  app : Nat → Byte
  download : Nat → Byte
  meta : Metadata

/-- Modelled from the spec: `_pfb_mark_pico_has_new_firmware` sets the
`has_new_firmware` flag (library code, declared in `src/bootloader.c`). -/
def mark_pico_has_new_firmware (d : Device) : Device :=
  { d with meta := { d.meta with has_new_firmware := true } }

/-- Modelled from the spec: `_pfb_mark_pico_has_no_new_firmware` clears the
`has_new_firmware` flag. -/
def mark_pico_has_no_new_firmware (d : Device) : Device :=
  { d with meta := { d.meta with has_new_firmware := false } }

/-- Modelled from the spec: `_pfb_mark_is_after_rollback` sets the
`after_rollback` flag. -/
def mark_is_after_rollback (d : Device) : Device :=
  { d with meta := { d.meta with after_rollback := true } }

/-- Modelled from the spec: `_pfb_mark_is_not_after_rollback` clears the
`after_rollback` flag. -/
def mark_is_not_after_rollback (d : Device) : Device :=
  { d with meta := { d.meta with after_rollback := false } }

/-- Modelled from the spec: `_pfb_mark_should_rollback` sets the
`should_rollback` flag (arming a rollback for the next reset). -/
def mark_should_rollback (d : Device) : Device :=
  { d with meta := { d.meta with should_rollback := true } }

/-- Modelled from the spec: `pfb_firmware_commit` clears `should_rollback`
(spec glossary: commit is clearing `should_rollback`). -/
def pfb_firmware_commit (d : Device) : Device :=
  { d with meta := { d.meta with should_rollback := false } }

/-- Modelled from the spec: `pfb_mark_download_slot_as_valid(size)` marks
the download slot valid and persists `size` as the `swap_size` that the
next swap will use (spec sections 3 and 6). -/
def pfb_mark_download_slot_as_valid (d : Device) (size : Nat) : Device :=
  { d with meta := { d.meta with download_slot_valid := true, swap_size := size } }

/-- Modelled from the spec: `pfb_mark_download_slot_as_invalid` clears the
download-slot-valid marker. -/
def pfb_mark_download_slot_as_invalid (d : Device) : Device :=
  { d with meta := { d.meta with download_slot_valid := false } }

/-- Model of `flash_range_erase(addr, len)` on one slot: bytes in
`[addr, addr+len)` become the erased pattern. -/
def flash_range_erase (mem : Nat → Byte) (addr len : Nat) : Nat → Byte :=
  fun j => if addr ≤ j ∧ j < addr + len then FLASH_ERASED else mem j

/-- Model of `flash_range_program(addr, buf, len)` on one slot: bytes in
`[addr, addr+len)` are replaced by `buf`. -/
def flash_range_program (mem : Nat → Byte) (addr : Nat) (buf : Nat → Byte)
    (len : Nat) : Nat → Byte :=
  fun j => if addr ≤ j ∧ j < addr + len then buf (j - addr) else mem j

/-- One iteration of the `swap_images` loop (`src/unnamed/part_000` lines
78-106): copy sector `i` of each slot to RAM, erase both sectors, program
each slot's sector with the other's saved bytes. -/
def swap_iteration (d : Device) (i : Nat) : Device :=
  let swap_buff_from_downlaod_slot : Nat → Byte :=
    fun j => d.download (i * FLASH_SECTOR_SIZE + j)
  let swap_buff_from_application_slot : Nat → Byte :=
    fun j => d.app (i * FLASH_SECTOR_SIZE + j)
  let app1 := flash_range_erase d.app (i * FLASH_SECTOR_SIZE) FLASH_SECTOR_SIZE
  let download1 :=
    flash_range_erase d.download (i * FLASH_SECTOR_SIZE) FLASH_SECTOR_SIZE
  let app2 :=
    flash_range_program app1 (i * FLASH_SECTOR_SIZE)
      swap_buff_from_downlaod_slot FLASH_SECTOR_SIZE
  let download2 :=
    flash_range_program download1 (i * FLASH_SECTOR_SIZE)
      swap_buff_from_application_slot FLASH_SECTOR_SIZE
  { d with app := app2, download := download2 }

/-- The swap loop run for `n` sectors. -/
def swap_n (d : Device) (n : Nat) : Device :=
  (List.range n).foldl swap_iteration d

/-- The sector count computed by `swap_images` from the persisted swap size
(`src/unnamed/part_000` lines 72-75): clamp `swap_size` of `0` or above the
slot length to the slot length, then divide by the sector size (C integer
division, which truncates). -/
def SWAP_ITERATIONS (swap_size slot_len : Nat) : Nat :=
  let sz := if swap_size = 0 ∨ swap_size > slot_len then slot_len else swap_size
  sz / FLASH_SECTOR_SIZE

/-- Function `swap_images`: reads `swap_size` from the metadata and exchanges the
derived number of sectors between the slots.  `slot_len` is the link-time
constant `__FLASH_SWAP_SPACE_LENGTH`. -/
def swap_images (slot_len : Nat) (d : Device) : Device :=
  swap_n d (SWAP_ITERATIONS d.meta.swap_size slot_len)

/-- Sector count that the spec's words prescribe (spec section 4.C): full
slot on `0`/overflow, otherwise the ceiling of `swap_size / S`.  Stated for
comparison with `SWAP_ITERATIONS`, which is translated from the source. -/
def n_sectors_spec (swap_size slot_len : Nat) : Nat :=
  if swap_size = 0 ∨ swap_size > slot_len then slot_len / FLASH_SECTOR_SIZE
  else (swap_size + FLASH_SECTOR_SIZE - 1) / FLASH_SECTOR_SIZE

/-- The four boot actions of the spec's section 4.E table. -/
inductive BootAction
  | recovery
  | rollback
  | swapAndArm
  | passthrough
deriving Repr, DecidableEq

/-- The boot decision of `main` (`src/unnamed/part_000`): the recovery
block runs when the trigger holds and never falls through (its server loop
is `while(1)`, left only by hand-off or hardware reset); otherwise the
`_pfb_should_rollback` / `_pfb_has_firmware_to_swap` chain picks rollback,
swap-and-arm, or passthrough.  `swap_size` is carried as part of the input
tuple of the spec's table; the decision does not consult it. -/
def boot_decision (recovery_trigger should_rollback has_firmware_to_swap : Bool)
    (swap_size : Nat) : BootAction :=
  if recovery_trigger then .recovery
  else if should_rollback then .rollback
  else if has_firmware_to_swap then .swapAndArm
  else .passthrough

/-- The non-recovery tail of `main` (`src/unnamed/part_000` lines 377-395):
the rollback / swap-and-arm / passthrough branch followed by
`pfb_mark_download_slot_as_invalid`.  Hand-off (`jump_to_vtor`) follows
unconditionally and does not change the device state. -/
def main_boot_tail (slot_len : Nat) (d : Device) : Device :=
  let d1 :=
    if d.meta.should_rollback then
      mark_is_after_rollback
        (mark_pico_has_no_new_firmware (pfb_firmware_commit (swap_images slot_len d)))
    else if d.meta.firmware_to_swap then
      mark_should_rollback
        (mark_is_not_after_rollback (mark_pico_has_new_firmware (swap_images slot_len d)))
    else
      mark_pico_has_no_new_firmware (pfb_firmware_commit d)
  pfb_mark_download_slot_as_invalid d1

/-- The recovery-mode success path (`src/unnamed/part_000` lines 361-370):
after the SHA check passes, mark the download slot valid with the uploaded
byte count, swap, commit, clear `has_new_firmware`, clear `after_rollback`,
invalidate the download slot; `jump_to_vtor` (hand-off) follows. -/
def recovery_success_path (slot_len upload_done : Nat) (d : Device) : Device :=
  let d1 := pfb_mark_download_slot_as_valid d upload_done
  let d2 := swap_images slot_len d1
  let d3 := pfb_firmware_commit d2
  let d4 := mark_pico_has_no_new_firmware d3
  let d5 := mark_is_not_after_rollback d4
  pfb_mark_download_slot_as_invalid d5

/-- What the recovery server does after handling one request. -/
inductive ServerNext
  | keepListening
  | handOff
  | hardReset
deriving Repr, DecidableEq

/-- Result of the post-upload branch of the POST handler. -/
structure PostOutcome where
  device : Device
  connection_closed : Bool
  next : ServerNext

/-- The post-upload branch of the POST handler (`src/unnamed/part_000`
lines 357-373): on SHA failure only a log line runs, then `close(1)` and
the `while(1)` loop continues listening; on success the swap-and-commit
path runs and hand-off follows without reaching `close(1)`. -/
def handle_post_result (slot_len upload_done : Nat) (sha_check_failed : Bool)
    (d : Device) : PostOutcome :=
  if sha_check_failed then
    { device := d, connection_closed := true, next := .keepListening }
  else
    { device := recovery_success_path slot_len upload_done d
      connection_closed := false
      next := .handOff }

/-- State of the upload streaming loop: the static `upload_buffer` contents
up to `upload_pos` (a list of that length), and the bytes already written
to the download slot (`upload_done` is its length). -/
structure UploadState where
  upload_buffer : List Byte
  flashed : List Byte
deriving Repr, DecidableEq

/-- One body byte through the upload loop (`src/unnamed/part_000` lines
326-338): append to `upload_buffer`; when it reaches `PFB_ALIGN_SIZE`,
write the aligned chunk at offset `upload_done` and reset the position. -/
def upload_byte (st : UploadState) (b : Byte) : UploadState :=
  let buf := st.upload_buffer ++ [b]
  if buf.length = PFB_ALIGN_SIZE then
    { upload_buffer := [], flashed := st.flashed ++ buf }
  else
    { upload_buffer := buf, flashed := st.flashed }

/-- The upload loop over a byte stream.  The loop consumes the received
chunks byte by byte, so the chunking into `recv` buffers does not affect
the result and the body is modelled as one byte list. -/
def upload_run (st : UploadState) (body : List Byte) : UploadState :=
  body.foldl upload_byte st

/-- One POST body through the handler: `upload_done` starts at `0`
(`flashed := []`), but the static `upload_buffer` / `upload_pos` pair keeps
whatever a previous POST of the same recovery session left in it. -/
def handle_post_body (stale : List Byte) (body : List Byte) : UploadState :=
  upload_run { upload_buffer := stale, flashed := [] } body

/-- The byte count handed to `pfb_firmware_sha256_check` after the loop. -/
def upload_done (st : UploadState) : Nat := st.flashed.length

/-- Does `needle` occur as a contiguous run inside `hay`?  Boolean model of
the C `strstr(hay, needle) != NULL` test. -/
def strstr (hay needle : List Byte) : Bool :=
  match hay with
  | [] => needle.isEmpty
  | _ :: t => (hay.take needle.length == needle) || strstr t needle

/-- ASCII bytes of `"GET"`. -/
def GET_BYTES : List Byte := [71, 69, 84]

/-- ASCII bytes of `"get"`. -/
def get_bytes : List Byte := [103, 101, 116]

/-- ASCII bytes of `"REBOOT"`. -/
def REBOOT_BYTES : List Byte := [82, 69, 66, 79, 79, 84]

/-- ASCII bytes of `"reboot"`. -/
def reboot_bytes : List Byte := [114, 101, 98, 111, 111, 116]

/-- ASCII bytes of `"POST"`. -/
def POST_BYTES : List Byte := [80, 79, 83, 84]

/-- ASCII bytes of `"post"`. -/
def post_bytes : List Byte := [112, 111, 115, 116]

/-- ASCII bytes of `"HTTP/1.1 200 OK"`. -/
def HTTP_OK_BYTES : List Byte :=
  [72, 84, 84, 80, 47, 49, 46, 49, 32, 50, 48, 48, 32, 79, 75]

/-- ASCII bytes of `"Content-Length:"`. -/
def CONTENT_LENGTH_BYTES : List Byte :=
  [67, 111, 110, 116, 101, 110, 116, 45, 76, 101, 110, 103, 116, 104, 58]

/-- The `page_recover` byte array of `src/unnamed/part_000` lines 155-179,
exactly as the C array: the HTTP status line and headers, the blank line,
the HTML document, a trailing CRLF CRLF, and the string's NUL terminator
(`send` transmits `sizeof(page_recover)` bytes, NUL included). -/
def page_recover : List Byte :=
  [72, 84, 84, 80, 47, 49, 46, 49, 32, 50, 48, 48, 32, 79, 75, 13, 10, 67, 111, 110, 116, 101,
   110, 116, 45, 84, 121, 112, 101, 58, 32, 72, 84, 77, 76, 13, 10, 67, 111, 110, 116, 101, 110,
   116, 45, 76, 101, 110, 103, 116, 104, 58, 32, 57, 56, 51, 13, 10, 13, 10, 60, 33, 68, 79, 67,
   84, 89, 80, 69, 32, 104, 116, 109, 108, 62, 60, 104, 116, 109, 108, 32, 108, 97, 110, 103, 61,
   34, 101, 110, 34, 62, 60, 104, 101, 97, 100, 62, 60, 109, 101, 116, 97, 32, 99, 104, 97, 114,
   115, 101, 116, 61, 34, 85, 84, 70, 45, 56, 34, 62, 60, 116, 105, 116, 108, 101, 62, 68, 65, 32,
   68, 111, 110, 103, 108, 101, 60, 47, 116, 105, 116, 108, 101, 62, 60, 47, 104, 101, 97, 100,
   62, 60, 98, 111, 100, 121, 62, 60, 104, 49, 62, 83, 89, 83, 84, 69, 77, 32, 82, 69, 67, 79, 86,
   69, 82, 89, 60, 47, 104, 49, 62, 66, 111, 111, 116, 101, 100, 32, 105, 110, 32, 114, 101, 99,
   111, 118, 101, 114, 121, 32, 109, 111, 100, 101, 46, 32, 32, 65, 32, 110, 101, 119, 32, 102,
   105, 114, 109, 119, 97, 114, 101, 32, 99, 97, 110, 32, 98, 101, 32, 108, 111, 97, 100, 101,
   100, 32, 104, 101, 114, 101, 46, 60, 98, 114, 62, 60, 98, 114, 62, 84, 104, 105, 115, 32, 119,
   105, 108, 108, 32, 116, 97, 107, 101, 32, 97, 98, 111, 117, 116, 32, 50, 32, 109, 105, 110,
   117, 116, 101, 115, 46, 60, 98, 114, 62, 60, 98, 114, 62, 78, 101, 119, 32, 102, 105, 114, 109,
   119, 97, 114, 101, 32, 115, 104, 111, 117, 108, 100, 32, 98, 111, 111, 116, 32, 115, 117, 99,
   99, 101, 115, 115, 102, 117, 108, 108, 121, 44, 32, 97, 102, 116, 101, 114, 32, 119, 104, 105,
   99, 104, 32, 114, 101, 102, 114, 101, 115, 104, 32, 116, 104, 105, 115, 32, 112, 97, 103, 101,
   46, 60, 98, 114, 62, 60, 98, 114, 62, 60, 105, 110, 112, 117, 116, 32, 116, 121, 112, 101, 61,
   34, 102, 105, 108, 101, 34, 32, 105, 100, 61, 34, 105, 110, 112, 117, 116, 34, 32, 111, 110,
   99, 104, 97, 110, 103, 101, 61, 34, 117, 112, 108, 111, 97, 100, 40, 41, 34, 62, 60, 98, 114,
   62, 60, 98, 114, 62, 32, 32, 60, 115, 99, 114, 105, 112, 116, 62, 32, 32, 32, 32, 32, 32, 102,
   117, 110, 99, 116, 105, 111, 110, 32, 117, 112, 108, 111, 97, 100, 40, 41, 32, 123, 32, 32, 32,
   32, 32, 32, 32, 32, 32, 32, 99, 111, 110, 115, 116, 32, 105, 110, 112, 117, 116, 32, 61, 32,
   100, 111, 99, 117, 109, 101, 110, 116, 46, 103, 101, 116, 69, 108, 101, 109, 101, 110, 116, 66,
   121, 73, 100, 40, 39, 105, 110, 112, 117, 116, 39, 41, 59, 32, 32, 32, 32, 32, 32, 32, 32, 32,
   32, 105, 102, 32, 40, 105, 110, 112, 117, 116, 46, 102, 105, 108, 101, 115, 46, 108, 101, 110,
   103, 116, 104, 32, 62, 32, 48, 41, 32, 123, 32, 32, 32, 32, 32, 32, 32, 32, 32, 32, 32, 32, 32,
   32, 99, 111, 110, 115, 116, 32, 114, 100, 114, 32, 61, 32, 110, 101, 119, 32, 70, 105, 108,
   101, 82, 101, 97, 100, 101, 114, 40, 41, 59, 32, 32, 32, 32, 32, 32, 32, 32, 32, 32, 32, 32,
   32, 32, 114, 100, 114, 46, 111, 110, 108, 111, 97, 100, 32, 61, 32, 101, 32, 61, 62, 32, 102,
   101, 116, 99, 104, 40, 39, 117, 112, 108, 111, 97, 100, 39, 44, 32, 123, 32, 32, 32, 32, 32,
   32, 32, 32, 32, 32, 32, 32, 32, 32, 32, 32, 32, 32, 109, 101, 116, 104, 111, 100, 58, 32, 39,
   80, 79, 83, 84, 39, 44, 32, 32, 32, 32, 32, 32, 32, 32, 32, 32, 32, 32, 32, 32, 32, 32, 32, 32,
   104, 101, 97, 100, 101, 114, 115, 58, 32, 123, 39, 67, 111, 110, 116, 101, 110, 116, 45, 84,
   121, 112, 101, 39, 58, 32, 39, 97, 112, 112, 108, 105, 99, 97, 116, 105, 111, 110, 47, 111, 99,
   116, 101, 116, 45, 115, 116, 114, 101, 97, 109, 39, 125, 44, 32, 32, 32, 32, 32, 32, 32, 32,
   32, 32, 32, 32, 32, 32, 32, 32, 32, 32, 98, 111, 100, 121, 58, 32, 101, 46, 116, 97, 114, 103,
   101, 116, 46, 114, 101, 115, 117, 108, 116, 32, 32, 32, 32, 32, 32, 32, 32, 32, 32, 32, 32, 32,
   32, 125, 41, 46, 116, 104, 101, 110, 40, 114, 101, 115, 32, 61, 62, 32, 114, 101, 115, 46, 116,
   101, 120, 116, 40, 41, 41, 46, 99, 97, 116, 99, 104, 40, 101, 114, 114, 32, 61, 62, 32, 99,
   111, 110, 115, 111, 108, 101, 46, 101, 114, 114, 111, 114, 40, 39, 69, 114, 114, 111, 114, 58,
   39, 44, 32, 101, 114, 114, 41, 41, 59, 32, 32, 32, 32, 32, 32, 32, 32, 32, 32, 32, 32, 32, 32,
   114, 100, 114, 46, 114, 101, 97, 100, 65, 115, 65, 114, 114, 97, 121, 66, 117, 102, 102, 101,
   114, 40, 105, 110, 112, 117, 116, 46, 102, 105, 108, 101, 115, 91, 48, 93, 41, 59, 32, 32, 32,
   32, 32, 32, 32, 32, 32, 32, 125, 32, 32, 32, 32, 32, 32, 125, 32, 32, 60, 47, 115, 99, 114,
   105, 112, 116, 62, 60, 98, 114, 62, 60, 98, 114, 62, 60, 98, 117, 116, 116, 111, 110, 32, 111,
   110, 99, 108, 105, 99, 107, 61, 34, 108, 111, 99, 97, 116, 105, 111, 110, 46, 104, 114, 101,
   102, 61, 39, 114, 101, 98, 111, 111, 116, 39, 34, 62, 82, 69, 66, 79, 79, 84, 60, 47, 98, 117,
   116, 116, 111, 110, 62, 38, 110, 98, 115, 112, 59, 38, 110, 98, 115, 112, 60, 47, 98, 111, 100,
   121, 62, 60, 47, 104, 116, 109, 108, 62, 13, 10, 13, 10, 0]

/-- The HTML document carried by `page_recover`: the bytes from just after
the header terminator up to and including `</body></html>`. -/
def html_document : List Byte :=
  [60, 33, 68, 79, 67, 84, 89, 80, 69, 32, 104, 116, 109, 108, 62, 60, 104, 116, 109, 108, 32,
   108, 97, 110, 103, 61, 34, 101, 110, 34, 62, 60, 104, 101, 97, 100, 62, 60, 109, 101, 116, 97,
   32, 99, 104, 97, 114, 115, 101, 116, 61, 34, 85, 84, 70, 45, 56, 34, 62, 60, 116, 105, 116,
   108, 101, 62, 68, 65, 32, 68, 111, 110, 103, 108, 101, 60, 47, 116, 105, 116, 108, 101, 62, 60,
   47, 104, 101, 97, 100, 62, 60, 98, 111, 100, 121, 62, 60, 104, 49, 62, 83, 89, 83, 84, 69, 77,
   32, 82, 69, 67, 79, 86, 69, 82, 89, 60, 47, 104, 49, 62, 66, 111, 111, 116, 101, 100, 32, 105,
   110, 32, 114, 101, 99, 111, 118, 101, 114, 121, 32, 109, 111, 100, 101, 46, 32, 32, 65, 32,
   110, 101, 119, 32, 102, 105, 114, 109, 119, 97, 114, 101, 32, 99, 97, 110, 32, 98, 101, 32,
   108, 111, 97, 100, 101, 100, 32, 104, 101, 114, 101, 46, 60, 98, 114, 62, 60, 98, 114, 62, 84,
   104, 105, 115, 32, 119, 105, 108, 108, 32, 116, 97, 107, 101, 32, 97, 98, 111, 117, 116, 32,
   50, 32, 109, 105, 110, 117, 116, 101, 115, 46, 60, 98, 114, 62, 60, 98, 114, 62, 78, 101, 119,
   32, 102, 105, 114, 109, 119, 97, 114, 101, 32, 115, 104, 111, 117, 108, 100, 32, 98, 111, 111,
   116, 32, 115, 117, 99, 99, 101, 115, 115, 102, 117, 108, 108, 121, 44, 32, 97, 102, 116, 101,
   114, 32, 119, 104, 105, 99, 104, 32, 114, 101, 102, 114, 101, 115, 104, 32, 116, 104, 105, 115,
   32, 112, 97, 103, 101, 46, 60, 98, 114, 62, 60, 98, 114, 62, 60, 105, 110, 112, 117, 116, 32,
   116, 121, 112, 101, 61, 34, 102, 105, 108, 101, 34, 32, 105, 100, 61, 34, 105, 110, 112, 117,
   116, 34, 32, 111, 110, 99, 104, 97, 110, 103, 101, 61, 34, 117, 112, 108, 111, 97, 100, 40, 41,
   34, 62, 60, 98, 114, 62, 60, 98, 114, 62, 32, 32, 60, 115, 99, 114, 105, 112, 116, 62, 32, 32,
   32, 32, 32, 32, 102, 117, 110, 99, 116, 105, 111, 110, 32, 117, 112, 108, 111, 97, 100, 40, 41,
   32, 123, 32, 32, 32, 32, 32, 32, 32, 32, 32, 32, 99, 111, 110, 115, 116, 32, 105, 110, 112,
   117, 116, 32, 61, 32, 100, 111, 99, 117, 109, 101, 110, 116, 46, 103, 101, 116, 69, 108, 101,
   109, 101, 110, 116, 66, 121, 73, 100, 40, 39, 105, 110, 112, 117, 116, 39, 41, 59, 32, 32, 32,
   32, 32, 32, 32, 32, 32, 32, 105, 102, 32, 40, 105, 110, 112, 117, 116, 46, 102, 105, 108, 101,
   115, 46, 108, 101, 110, 103, 116, 104, 32, 62, 32, 48, 41, 32, 123, 32, 32, 32, 32, 32, 32, 32,
   32, 32, 32, 32, 32, 32, 32, 99, 111, 110, 115, 116, 32, 114, 100, 114, 32, 61, 32, 110, 101,
   119, 32, 70, 105, 108, 101, 82, 101, 97, 100, 101, 114, 40, 41, 59, 32, 32, 32, 32, 32, 32, 32,
   32, 32, 32, 32, 32, 32, 32, 114, 100, 114, 46, 111, 110, 108, 111, 97, 100, 32, 61, 32, 101,
   32, 61, 62, 32, 102, 101, 116, 99, 104, 40, 39, 117, 112, 108, 111, 97, 100, 39, 44, 32, 123,
   32, 32, 32, 32, 32, 32, 32, 32, 32, 32, 32, 32, 32, 32, 32, 32, 32, 32, 109, 101, 116, 104,
   111, 100, 58, 32, 39, 80, 79, 83, 84, 39, 44, 32, 32, 32, 32, 32, 32, 32, 32, 32, 32, 32, 32,
   32, 32, 32, 32, 32, 32, 104, 101, 97, 100, 101, 114, 115, 58, 32, 123, 39, 67, 111, 110, 116,
   101, 110, 116, 45, 84, 121, 112, 101, 39, 58, 32, 39, 97, 112, 112, 108, 105, 99, 97, 116, 105,
   111, 110, 47, 111, 99, 116, 101, 116, 45, 115, 116, 114, 101, 97, 109, 39, 125, 44, 32, 32, 32,
   32, 32, 32, 32, 32, 32, 32, 32, 32, 32, 32, 32, 32, 32, 32, 98, 111, 100, 121, 58, 32, 101, 46,
   116, 97, 114, 103, 101, 116, 46, 114, 101, 115, 117, 108, 116, 32, 32, 32, 32, 32, 32, 32, 32,
   32, 32, 32, 32, 32, 32, 125, 41, 46, 116, 104, 101, 110, 40, 114, 101, 115, 32, 61, 62, 32,
   114, 101, 115, 46, 116, 101, 120, 116, 40, 41, 41, 46, 99, 97, 116, 99, 104, 40, 101, 114, 114,
   32, 61, 62, 32, 99, 111, 110, 115, 111, 108, 101, 46, 101, 114, 114, 111, 114, 40, 39, 69, 114,
   114, 111, 114, 58, 39, 44, 32, 101, 114, 114, 41, 41, 59, 32, 32, 32, 32, 32, 32, 32, 32, 32,
   32, 32, 32, 32, 32, 114, 100, 114, 46, 114, 101, 97, 100, 65, 115, 65, 114, 114, 97, 121, 66,
   117, 102, 102, 101, 114, 40, 105, 110, 112, 117, 116, 46, 102, 105, 108, 101, 115, 91, 48, 93,
   41, 59, 32, 32, 32, 32, 32, 32, 32, 32, 32, 32, 125, 32, 32, 32, 32, 32, 32, 125, 32, 32, 60,
   47, 115, 99, 114, 105, 112, 116, 62, 60, 98, 114, 62, 60, 98, 114, 62, 60, 98, 117, 116, 116,
   111, 110, 32, 111, 110, 99, 108, 105, 99, 107, 61, 34, 108, 111, 99, 97, 116, 105, 111, 110,
   46, 104, 114, 101, 102, 61, 39, 114, 101, 98, 111, 111, 116, 39, 34, 62, 82, 69, 66, 79, 79,
   84, 60, 47, 98, 117, 116, 116, 111, 110, 62, 38, 110, 98, 115, 112, 59, 38, 110, 98, 115, 112,
   60, 47, 98, 111, 100, 121, 62, 60, 47, 104, 116, 109, 108, 62]

/-- Offset of the first occurrence of the CRLF CRLF header terminator. -/
def find_terminator : List Byte → Option Nat
  | [] => none
  | b :: t =>
    if (b :: t).take 4 = [13, 10, 13, 10] then some 0
    else (find_terminator t).map (· + 1)

/-- Is `b` an ASCII decimal digit? -/
def isDigit (b : Byte) : Bool := 48 ≤ b && b ≤ 57

/-- Decimal value of a digit string. -/
def digitsVal (l : List Byte) : Nat := l.foldl (fun a b => 10 * a + (b - 48)) 0

/-- The suffix of `l` after the first occurrence of `marker`. -/
def after_marker (l marker : List Byte) : Option (List Byte) :=
  match l with
  | [] => if marker.isEmpty then some [] else none
  | _ :: t =>
    if l.take marker.length == marker then some (l.drop marker.length)
    else after_marker t marker

/-- The numeric value declared by the `Content-Length` header of a response
buffer: the digit run after `"Content-Length:"` and optional spaces. -/
def content_length_of (p : List Byte) : Option Nat :=
  (after_marker p CONTENT_LENGTH_BYTES).map
    (fun rest => digitsVal ((rest.dropWhile (· = 32)).takeWhile isDigit))

/-- The recovery server's reply to one received request. -/
inductive ServerReply
  | sendPage (bytes : List Byte)
  | reboot
  | post
  | ignore
deriving Repr, DecidableEq

/-- Request dispatch of the server loop (`src/unnamed/part_000` lines
300-310): a request containing `GET`/`get` is answered with `page_recover`
unless it also contains `REBOOT`/`reboot`, which resets the hardware;
otherwise `POST`/`post` starts an upload; anything else is dropped. -/
def handle_request (req : List Byte) : ServerReply :=
  if strstr req GET_BYTES || strstr req get_bytes then
    if strstr req REBOOT_BYTES || strstr req reboot_bytes then .reboot
    else .sendPage page_recover
  else if strstr req POST_BYTES || strstr req post_bytes then .post
  else .ignore


/-- Device used by concrete witnesses: distinct slot contents and a pending
swap of one full sector. -/
def witness_device : Device :=
  { app := fun _ => 1
    download := fun _ => 2
    meta :=
      { has_new_firmware := false
        after_rollback := false
        should_rollback := false
        firmware_to_swap := true
        swap_size := 4096
        download_slot_valid := true } }

/-- Device whose persisted `swap_size` is 256 bytes: one aligned upload
chunk, smaller than one 4096-byte erase sector. -/
def short_image_device : Device :=
  { app := fun _ => 1
    download := fun _ => 2
    meta :=
      { has_new_firmware := false
        after_rollback := false
        should_rollback := false
        firmware_to_swap := true
        swap_size := 256
        download_slot_valid := true } }

/-- A POST body of 257 bytes: one aligned chunk of ones and a final byte 2. -/
def unaligned_body : List Byte := List.replicate 256 1 ++ [2]

/-- ASCII bytes of a plain request line `GET / HTTP/1.1` with terminator. -/
def sample_get_request : List Byte :=
  [71, 69, 84, 32, 47, 32, 72, 84, 84, 80, 47, 49, 46, 49, 13, 10, 13, 10]

theorem swap_iteration_meta (d : Device) (i : Nat) :
    (swap_iteration d i).meta = d.meta := rfl

theorem swap_iteration_app (d : Device) (i j : Nat) :
    (swap_iteration d i).app j =
      if i * FLASH_SECTOR_SIZE ≤ j ∧ j < i * FLASH_SECTOR_SIZE + FLASH_SECTOR_SIZE
      then d.download j else d.app j := by
  simp only [swap_iteration, flash_range_program, flash_range_erase]
  by_cases h : i * FLASH_SECTOR_SIZE ≤ j ∧ j < i * FLASH_SECTOR_SIZE + FLASH_SECTOR_SIZE
  · rw [if_pos h, if_pos h]
    congr 1
    omega
  · rw [if_neg h, if_neg h, if_neg h]

theorem swap_iteration_download (d : Device) (i j : Nat) :
    (swap_iteration d i).download j =
      if i * FLASH_SECTOR_SIZE ≤ j ∧ j < i * FLASH_SECTOR_SIZE + FLASH_SECTOR_SIZE
      then d.app j else d.download j := by
  simp only [swap_iteration, flash_range_program, flash_range_erase]
  by_cases h : i * FLASH_SECTOR_SIZE ≤ j ∧ j < i * FLASH_SECTOR_SIZE + FLASH_SECTOR_SIZE
  · rw [if_pos h, if_pos h]
    congr 1
    omega
  · rw [if_neg h, if_neg h, if_neg h]

theorem swap_n_succ (d : Device) (n : Nat) :
    swap_n d (n + 1) = swap_iteration (swap_n d n) n := by
  simp [swap_n, List.range_succ]

theorem swap_n_meta (d : Device) (n : Nat) : (swap_n d n).meta = d.meta := by
  induction n with
  | zero => rfl
  | succ n ih => rw [swap_n_succ, swap_iteration_meta, ih]

theorem swap_n_app_download (d : Device) (n : Nat) : ∀ j,
    (swap_n d n).app j =
      (if j < n * FLASH_SECTOR_SIZE then d.download j else d.app j) ∧
    (swap_n d n).download j =
      (if j < n * FLASH_SECTOR_SIZE then d.app j else d.download j) := by
  induction n with
  | zero => intro j; simp [swap_n]
  | succ n ih =>
    intro j
    rcases ih j with ⟨ha, hd⟩
    rw [swap_n_succ, swap_iteration_app, swap_iteration_download, ha, hd]
    simp only [FLASH_SECTOR_SIZE] at *
    constructor
    · split_ifs <;> first | rfl | omega
    · split_ifs <;> first | rfl | omega

/-- C5: swap is self-inverse.  For every initial pair of APP and DOWNLOAD
slot contents and every sector count `n`, executing the swap loop twice
with the same `n` restores both slots byte-for-byte. -/
theorem swap_self_inverse (d : Device) (n : Nat) :
    (swap_n (swap_n d n) n).app = d.app ∧
    (swap_n (swap_n d n) n).download = d.download := by
  constructor <;> funext j
  · rcases swap_n_app_download (swap_n d n) n j with ⟨ha, -⟩
    rcases swap_n_app_download d n j with ⟨ha0, hd0⟩
    rw [ha, ha0, hd0]
    split_ifs <;> rfl
  · rcases swap_n_app_download (swap_n d n) n j with ⟨-, hd⟩
    rcases swap_n_app_download d n j with ⟨ha0, hd0⟩
    rw [hd, ha0, hd0]
    split_ifs <;> rfl

/-- C10: frame property of `swap_images`.  Only the first
`SWAP_ITERATIONS * FLASH_SECTOR_SIZE` bytes of each slot can change: every
byte of APP and of DOWNLOAD at or beyond that offset is unchanged, and the
metadata (the INFO sector) is not written at all. -/
theorem swap_images_frame (slot_len : Nat) (d : Device) (j : Nat)
    (h : SWAP_ITERATIONS d.meta.swap_size slot_len * FLASH_SECTOR_SIZE ≤ j) :
    (swap_images slot_len d).app j = d.app j ∧
    (swap_images slot_len d).download j = d.download j ∧
    (swap_images slot_len d).meta = d.meta := by
  unfold swap_images
  rcases swap_n_app_download d (SWAP_ITERATIONS d.meta.swap_size slot_len) j with ⟨ha, hd⟩
  refine ⟨?_, ?_, swap_n_meta _ _⟩
  · rw [ha, if_neg (by omega)]
  · rw [hd, if_neg (by omega)]

/-- Witness for `swap_images_frame`: a device with `swap_size = 4096` in an
8192-byte slot; byte 5000 of each slot is beyond the one swapped sector. -/
theorem swap_images_frame_witness :
    SWAP_ITERATIONS witness_device.meta.swap_size 8192 * FLASH_SECTOR_SIZE ≤ 5000 ∧
    ((swap_images 8192 witness_device).app 5000 = witness_device.app 5000 ∧
     (swap_images 8192 witness_device).download 5000 = witness_device.download 5000 ∧
     (swap_images 8192 witness_device).meta = witness_device.meta) :=
  ⟨by decide, swap_images_frame 8192 witness_device 5000 (by decide)⟩

/-- C4 evaluation: the source derives the sector count by C integer
division, which truncates.  At `swap_size = 256` (one aligned upload chunk)
in an 8192-byte slot the code swaps `256 / 4096 = 0` sectors, while the
spec's ceiling formula requires 1; the sector containing the last byte of
the image is left unswapped (byte 255 of APP keeps its old value). -/
theorem swap_iterations_truncate :
    SWAP_ITERATIONS 256 8192 = 0 ∧
    n_sectors_spec 256 8192 = 1 ∧
    (swap_images 8192 short_image_device).app 255 = 1 ∧
    short_image_device.download 255 = 2 := by
  refine ⟨by decide, by decide, ?_, rfl⟩
  rfl

/-- C1: the boot decision is a total function with the priority order of
the spec's section 4.E table: the recovery trigger first, then
`should_rollback`, then the firmware-to-swap flag, else passthrough; the
persisted `swap_size` is carried in the input tuple but never changes the
choice.  The four cases are mutually exclusive and exhaustive. -/
theorem boot_decision_total (rt sr hf : Bool) (sz : Nat) :
    (boot_decision rt sr hf sz = BootAction.recovery ↔ rt = true) ∧
    (boot_decision rt sr hf sz = BootAction.rollback ↔ rt = false ∧ sr = true) ∧
    (boot_decision rt sr hf sz = BootAction.swapAndArm ↔
      rt = false ∧ sr = false ∧ hf = true) ∧
    (boot_decision rt sr hf sz = BootAction.passthrough ↔
      rt = false ∧ sr = false ∧ hf = false) := by
  cases rt <;> cases sr <;> cases hf <;> simp [boot_decision]

/-- C3: the swap-and-arm path.  When the recovery trigger is off,
`should_rollback` is clear and the firmware-to-swap flag is set, `main`
swaps the slots, sets `has_new_firmware`, clears `after_rollback`, sets
`should_rollback`, invalidates the download slot and hands off, so the
next reset takes the rollback action unless the application clears
`should_rollback`. -/
theorem swap_and_arm_path (slot_len : Nat) (d : Device)
    (h1 : d.meta.should_rollback = false)
    (h2 : d.meta.firmware_to_swap = true) :
    (main_boot_tail slot_len d).meta.has_new_firmware = true ∧
    (main_boot_tail slot_len d).meta.after_rollback = false ∧
    (main_boot_tail slot_len d).meta.should_rollback = true ∧
    (main_boot_tail slot_len d).meta.download_slot_valid = false ∧
    (∀ j, (main_boot_tail slot_len d).app j =
      if j < SWAP_ITERATIONS d.meta.swap_size slot_len * FLASH_SECTOR_SIZE
      then d.download j else d.app j) ∧
    (∀ j, (main_boot_tail slot_len d).download j =
      if j < SWAP_ITERATIONS d.meta.swap_size slot_len * FLASH_SECTOR_SIZE
      then d.app j else d.download j) ∧
    (∀ hf sz, boot_decision false (main_boot_tail slot_len d).meta.should_rollback hf sz
      = BootAction.rollback) := by
  have hmain : main_boot_tail slot_len d =
      pfb_mark_download_slot_as_invalid (mark_should_rollback
        (mark_is_not_after_rollback (mark_pico_has_new_firmware
          (swap_images slot_len d)))) := by
    simp [main_boot_tail, h1, h2]
  rw [hmain]
  have happ : ∀ j,
      (pfb_mark_download_slot_as_invalid (mark_should_rollback
        (mark_is_not_after_rollback (mark_pico_has_new_firmware
          (swap_images slot_len d))))).app j = (swap_images slot_len d).app j :=
    fun _ => rfl
  have hdl : ∀ j,
      (pfb_mark_download_slot_as_invalid (mark_should_rollback
        (mark_is_not_after_rollback (mark_pico_has_new_firmware
          (swap_images slot_len d))))).download j = (swap_images slot_len d).download j :=
    fun _ => rfl
  refine ⟨rfl, rfl, rfl, rfl, ?_, ?_, fun hf sz => rfl⟩
  · intro j
    rw [happ j]
    exact (swap_n_app_download d (SWAP_ITERATIONS d.meta.swap_size slot_len) j).1
  · intro j
    rw [hdl j]
    exact (swap_n_app_download d (SWAP_ITERATIONS d.meta.swap_size slot_len) j).2

/-- Witness for `swap_and_arm_path` at a concrete armed device. -/
theorem swap_and_arm_path_witness :
    witness_device.meta.should_rollback = false ∧
    witness_device.meta.firmware_to_swap = true ∧
    ((main_boot_tail 8192 witness_device).meta.has_new_firmware = true ∧
     (main_boot_tail 8192 witness_device).meta.after_rollback = false ∧
     (main_boot_tail 8192 witness_device).meta.should_rollback = true ∧
     (main_boot_tail 8192 witness_device).meta.download_slot_valid = false ∧
     (∀ j, (main_boot_tail 8192 witness_device).app j =
       if j < SWAP_ITERATIONS witness_device.meta.swap_size 8192 * FLASH_SECTOR_SIZE
       then witness_device.download j else witness_device.app j) ∧
     (∀ j, (main_boot_tail 8192 witness_device).download j =
       if j < SWAP_ITERATIONS witness_device.meta.swap_size 8192 * FLASH_SECTOR_SIZE
       then witness_device.app j else witness_device.download j) ∧
     (∀ hf sz, boot_decision false
        (main_boot_tail 8192 witness_device).meta.should_rollback hf sz
        = BootAction.rollback)) :=
  ⟨rfl, rfl, swap_and_arm_path 8192 witness_device rfl rfl⟩

/-- C2: the recovery swap-and-commit path.  When an upload of
`upload_count` bytes passes digest verification, the bootloader marks the
slot valid, swaps, clears `should_rollback` (commit), clears
`has_new_firmware`, clears `after_rollback`, invalidates the download slot
and hands off; no rollback is armed, so the next reset does not take the
rollback action. -/
theorem recovery_success_commits (slot_len upload_count : Nat) (d : Device) :
    (recovery_success_path slot_len upload_count d).meta.should_rollback = false ∧
    (recovery_success_path slot_len upload_count d).meta.has_new_firmware = false ∧
    (recovery_success_path slot_len upload_count d).meta.after_rollback = false ∧
    (recovery_success_path slot_len upload_count d).meta.download_slot_valid = false ∧
    (∀ j, (recovery_success_path slot_len upload_count d).app j =
      if j < SWAP_ITERATIONS upload_count slot_len * FLASH_SECTOR_SIZE
      then d.download j else d.app j) ∧
    (∀ j, (recovery_success_path slot_len upload_count d).download j =
      if j < SWAP_ITERATIONS upload_count slot_len * FLASH_SECTOR_SIZE
      then d.app j else d.download j) ∧
    (∀ hf sz, boot_decision false
      (recovery_success_path slot_len upload_count d).meta.should_rollback hf sz
      ≠ BootAction.rollback) := by
  refine ⟨rfl, rfl, rfl, rfl, ?_, ?_, ?_⟩
  · intro j
    exact (swap_n_app_download (pfb_mark_download_slot_as_valid d upload_count)
      (SWAP_ITERATIONS upload_count slot_len) j).1
  · intro j
    exact (swap_n_app_download (pfb_mark_download_slot_as_valid d upload_count)
      (SWAP_ITERATIONS upload_count slot_len) j).2
  · intro hf sz
    have h : (recovery_success_path slot_len upload_count d).meta.should_rollback
        = false := rfl
    rw [h]
    cases hf <;> simp [boot_decision]

/-- C6: a failed post-upload SHA-256 check commits nothing.  The device
state (both slots and every metadata flag) is exactly what it was when the
check ran, the connection is closed, and the server stays in its accept
loop. -/
theorem sha_failure_keeps_listening (slot_len upload_count : Nat) (d : Device) :
    (handle_post_result slot_len upload_count true d).device.app = d.app ∧
    (handle_post_result slot_len upload_count true d).device.download = d.download ∧
    (handle_post_result slot_len upload_count true d).device.meta = d.meta ∧
    (handle_post_result slot_len upload_count true d).connection_closed = true ∧
    (handle_post_result slot_len upload_count true d).next = ServerNext.keepListening :=
  ⟨rfl, rfl, rfl, rfl, rfl⟩

/-- Closed form of the upload loop: starting with a partial buffer `p` and
`f` bytes already flashed, processing `body` flashes the longest
`PFB_ALIGN_SIZE`-multiple prefix of `p ++ body` and leaves the remainder in
the buffer. -/
theorem upload_run_eq (body : List Byte) : ∀ p f : List Byte,
    p.length < PFB_ALIGN_SIZE →
    upload_run ⟨p, f⟩ body =
      ⟨(p ++ body).drop (((p.length + body.length) / PFB_ALIGN_SIZE) * PFB_ALIGN_SIZE),
       f ++ (p ++ body).take (((p.length + body.length) / PFB_ALIGN_SIZE) * PFB_ALIGN_SIZE)⟩ := by
  induction body with
  | nil =>
    intro p f hp
    have h0 : p.length / PFB_ALIGN_SIZE = 0 := Nat.div_eq_of_lt hp
    simp [upload_run, h0]
  | cons b rest ih =>
    intro p f hp
    have hstep : upload_run ⟨p, f⟩ (b :: rest) = upload_run (upload_byte ⟨p, f⟩ b) rest :=
      rfl
    rw [hstep]
    by_cases hfull : (p ++ [b]).length = PFB_ALIGN_SIZE
    · have hb : upload_byte ⟨p, f⟩ b = ⟨[], f ++ (p ++ [b])⟩ := by
        simp only [upload_byte, hfull, if_pos]
      have hlen : p.length + 1 = PFB_ALIGN_SIZE := by simpa using hfull
      rw [hb, ih [] (f ++ (p ++ [b])) (by simp [PFB_ALIGN_SIZE])]
      simp only [UploadState.mk.injEq, List.nil_append, List.length_nil, Nat.zero_add,
        List.length_cons]
      have hidx : ((p.length + (rest.length + 1)) / PFB_ALIGN_SIZE) * PFB_ALIGN_SIZE =
          (p ++ [b]).length + ((rest.length / PFB_ALIGN_SIZE) * PFB_ALIGN_SIZE) := by
        simp only [List.length_append, List.length_cons, List.length_nil]
        simp only [PFB_ALIGN_SIZE] at *
        omega
      have hsplit : p ++ b :: rest = (p ++ [b]) ++ rest := by simp
      constructor
      · rw [hsplit, hidx, List.drop_append]
      · rw [hsplit, hidx, List.take_append, List.append_assoc]
    · have hlen1 : ¬ p.length + 1 = PFB_ALIGN_SIZE := by
        simp only [List.length_append, List.length_cons, List.length_nil] at hfull
        omega
      have hb : upload_byte ⟨p, f⟩ b = ⟨p ++ [b], f⟩ := by
        simp [upload_byte, hlen1]
      have hlt : (p ++ [b]).length < PFB_ALIGN_SIZE := by
        simp only [List.length_append, List.length_cons, List.length_nil]
        omega
      rw [hb, ih (p ++ [b]) f hlt]
      have hidx : ((p ++ [b]).length + rest.length) / PFB_ALIGN_SIZE * PFB_ALIGN_SIZE =
          ((p.length + (rest.length + 1)) / PFB_ALIGN_SIZE) * PFB_ALIGN_SIZE := by
        simp only [List.length_append, List.length_cons, List.length_nil]
        simp only [PFB_ALIGN_SIZE]
        omega
      have hsplit : (p ++ [b]) ++ rest = p ++ b :: rest := by simp
      rw [hidx, hsplit]
      simp only [List.length_cons]

set_option maxRecDepth 4000 in
/-- C7 evaluation: a 257-byte POST body.  The loop flashes only the first
256 bytes and hands 256 to verification; the final byte is neither
zero-padded nor written, it stays in the static upload buffer. -/
theorem upload_tail_dropped :
    unaligned_body.length = 257 ∧
    upload_done (handle_post_body [] unaligned_body) = 256 ∧
    (handle_post_body [] unaligned_body).flashed = List.replicate 256 1 ∧
    (handle_post_body [] unaligned_body).upload_buffer = [2] := by
  have hlen : unaligned_body.length = 257 := by
    rw [unaligned_body, List.length_append, List.length_replicate]
    rfl
  have h := upload_run_eq unaligned_body [] [] (by rw [List.length_nil]; decide)
  have hidx : ((([] : List Byte).length + unaligned_body.length) / PFB_ALIGN_SIZE)
      * PFB_ALIGN_SIZE = 256 := by
    rw [List.length_nil, hlen]
    decide
  rw [hidx] at h
  have hbody : handle_post_body [] unaligned_body =
      ⟨unaligned_body.drop 256, unaligned_body.take 256⟩ := by
    rw [handle_post_body, h]
    simp only [List.nil_append]
  have htake : unaligned_body.take 256 = List.replicate 256 1 := by
    rw [unaligned_body, List.take_append_eq_append_take, List.length_replicate,
      List.take_replicate]
    simp
  have hdrop : unaligned_body.drop 256 = [2] := by
    rw [unaligned_body]
    rw [show (256 : Nat) = (List.replicate 256 (1 : Byte)).length by
      rw [List.length_replicate]]
    exact List.drop_left _ _
  refine ⟨hlen, ?_, ?_, ?_⟩
  · rw [upload_done, hbody]
    simp only [htake, List.length_replicate]
  · rw [hbody]
    exact htake
  · rw [hbody]
    exact hdrop

/-- C9: the static upload buffer position survives the end of a POST.  If
the first POST body of a session has a length that is not a multiple of
`PFB_ALIGN_SIZE`, its leftover tail stays buffered, its length is the
remainder, and the first aligned flash write of the next POST in the same
session starts with those stale bytes followed by the new body's first
bytes. -/
theorem stale_bytes_prefix_next_post (body1 body2 : List Byte)
    (h1 : body1.length % PFB_ALIGN_SIZE ≠ 0)
    (h2 : PFB_ALIGN_SIZE - body1.length % PFB_ALIGN_SIZE ≤ body2.length) :
    (handle_post_body [] body1).upload_buffer =
      body1.drop (body1.length - body1.length % PFB_ALIGN_SIZE) ∧
    (handle_post_body [] body1).upload_buffer.length =
      body1.length % PFB_ALIGN_SIZE ∧
    (handle_post_body (handle_post_body [] body1).upload_buffer body2).flashed.take
        PFB_ALIGN_SIZE =
      (handle_post_body [] body1).upload_buffer ++
        body2.take (PFB_ALIGN_SIZE - body1.length % PFB_ALIGN_SIZE) := by
  have h1run := upload_run_eq body1 [] [] (by decide)
  simp only [List.nil_append, List.length_nil, Nat.zero_add] at h1run
  have hidx1 : body1.length / PFB_ALIGN_SIZE * PFB_ALIGN_SIZE =
      body1.length - body1.length % PFB_ALIGN_SIZE := by
    simp only [PFB_ALIGN_SIZE]
    omega
  have hb1 : handle_post_body [] body1 =
      ⟨body1.drop (body1.length - body1.length % PFB_ALIGN_SIZE),
       body1.take (body1.length - body1.length % PFB_ALIGN_SIZE)⟩ := by
    rw [handle_post_body, h1run, hidx1]
  have hbuf : (handle_post_body [] body1).upload_buffer =
      body1.drop (body1.length - body1.length % PFB_ALIGN_SIZE) := by
    rw [hb1]
  have hlenbuf : (handle_post_body [] body1).upload_buffer.length =
      body1.length % PFB_ALIGN_SIZE := by
    rw [hbuf, List.length_drop]
    simp only [PFB_ALIGN_SIZE]
    omega
  have hlt : (handle_post_body [] body1).upload_buffer.length < PFB_ALIGN_SIZE := by
    rw [hlenbuf]
    simp only [PFB_ALIGN_SIZE]
    omega
  have h2run := upload_run_eq body2 ((handle_post_body [] body1).upload_buffer) [] hlt
  have hfl : (handle_post_body (handle_post_body [] body1).upload_buffer body2).flashed =
      ((handle_post_body [] body1).upload_buffer ++ body2).take
        ((((handle_post_body [] body1).upload_buffer.length + body2.length)
          / PFB_ALIGN_SIZE) * PFB_ALIGN_SIZE) := by
    rw [handle_post_body, h2run]
    simp only [List.nil_append]
  refine ⟨hbuf, hlenbuf, ?_⟩
  rw [hfl, List.take_take]
  have hge : PFB_ALIGN_SIZE ≤
      (((handle_post_body [] body1).upload_buffer.length + body2.length)
        / PFB_ALIGN_SIZE) * PFB_ALIGN_SIZE := by
    rw [hlenbuf]
    simp only [PFB_ALIGN_SIZE] at h2 ⊢
    omega
  rw [Nat.min_eq_left hge]
  rw [List.take_append_eq_append_take]
  rw [List.take_of_length_le (by rw [hlenbuf]; simp only [PFB_ALIGN_SIZE]; omega)]
  rw [hlenbuf]

set_option maxRecDepth 8000 in
/-- Witness for `stale_bytes_prefix_next_post`: a 300-byte first POST
leaves a 44-byte stale tail; the first flash write of a following 256-byte
POST starts with it. -/
theorem stale_bytes_prefix_next_post_witness :
    (List.replicate 300 (1 : Byte)).length % PFB_ALIGN_SIZE ≠ 0 ∧
    PFB_ALIGN_SIZE - (List.replicate 300 (1 : Byte)).length % PFB_ALIGN_SIZE ≤
      (List.replicate 256 (2 : Byte)).length ∧
    ((handle_post_body [] (List.replicate 300 (1 : Byte))).upload_buffer =
      (List.replicate 300 (1 : Byte)).drop
        ((List.replicate 300 (1 : Byte)).length -
          (List.replicate 300 (1 : Byte)).length % PFB_ALIGN_SIZE) ∧
    (handle_post_body [] (List.replicate 300 (1 : Byte))).upload_buffer.length =
      (List.replicate 300 (1 : Byte)).length % PFB_ALIGN_SIZE ∧
    (handle_post_body
        (handle_post_body [] (List.replicate 300 (1 : Byte))).upload_buffer
        (List.replicate 256 (2 : Byte))).flashed.take PFB_ALIGN_SIZE =
      (handle_post_body [] (List.replicate 300 (1 : Byte))).upload_buffer ++
        (List.replicate 256 (2 : Byte)).take
          (PFB_ALIGN_SIZE -
            (List.replicate 300 (1 : Byte)).length % PFB_ALIGN_SIZE)) :=
  ⟨by simp [PFB_ALIGN_SIZE], by simp [PFB_ALIGN_SIZE],
   stale_bytes_prefix_next_post (List.replicate 300 (1 : Byte))
     (List.replicate 256 (2 : Byte)) (by simp [PFB_ALIGN_SIZE])
     (by simp [PFB_ALIGN_SIZE])⟩

set_option maxRecDepth 40000 in
/-- C8: every recognized GET without the reboot substring is answered with
the fixed `page_recover` buffer; that buffer starts with the bytes of
`HTTP/1.1 200 OK`, its header terminator sits at offset 56, the payload
after the terminator is the 983-byte HTML document followed by a trailing
CRLF CRLF and the transmitted NUL, and the declared `Content-Length` is
exactly the HTML document's length. -/
theorem get_response_well_formed (req : List Byte)
    (hget : (strstr req GET_BYTES || strstr req get_bytes) = true)
    (hnoreboot : (strstr req REBOOT_BYTES || strstr req reboot_bytes) = false) :
    handle_request req = ServerReply.sendPage page_recover ∧
    page_recover.take 15 = HTTP_OK_BYTES ∧
    find_terminator page_recover = some 56 ∧
    page_recover.drop 60 = html_document ++ ([13, 10, 13, 10] ++ [0]) ∧
    html_document.length = 983 ∧
    content_length_of page_recover = some 983 := by
  refine ⟨?_, by decide, by decide, by decide, by decide, by decide⟩
  rw [handle_request, if_pos hget, if_neg (by rw [hnoreboot]; decide)]

set_option maxRecDepth 40000 in
/-- Witness for `get_response_well_formed` at a concrete GET request. -/
theorem get_response_well_formed_witness :
    (strstr sample_get_request GET_BYTES || strstr sample_get_request get_bytes) = true ∧
    (strstr sample_get_request REBOOT_BYTES
      || strstr sample_get_request reboot_bytes) = false ∧
    (handle_request sample_get_request = ServerReply.sendPage page_recover ∧
     page_recover.take 15 = HTTP_OK_BYTES ∧
     find_terminator page_recover = some 56 ∧
     page_recover.drop 60 = html_document ++ ([13, 10, 13, 10] ++ [0]) ∧
     html_document.length = 983 ∧
     content_length_of page_recover = some 983) :=
  ⟨by decide, by decide,
   get_response_well_formed sample_get_request (by decide) (by decide)⟩

end PicoFota
